import Mathlib

/-!
Verification of the tra-vfd fiscal-device library (Go package vfd).

Shallow embedding conventions:
- Go float64 monetary values are modelled as exact rationals.
- math.Round is modelled by round-half-away-from-zero on rationals.
- Go strings are Lean strings; byte slices holding XML text are Lean strings.
- Go maps used only through a fixed set of read keys are modelled as total
  functions from keys to values, with the zero value as initial image.
- RSA, SHA-1 and base64 are external library collaborators; they appear as
  abstract operations collected in a structure, and the definitions below
  embed the control flow of crypto.go around them.
-/

/-- Round-half-away-from-zero on rationals, modelling math.Round from the Go
standard library as used throughout vat.go and the models package. -/
def goRound (x : ℚ) : ℤ :=
  if 0 ≤ x then ⌊x + 1/2⌋ else -⌊-x + 1/2⌋

/-- The idiom math.Round(x*100)/100: rounding to two decimal places. -/
def round2 (x : ℚ) : ℚ :=
  (goRound (x * 100) : ℚ) / 100

/-- Decimal digits of a natural number below 100, padded to width two. -/
def natPad2 (a : Nat) : String :=
  (if a < 10 then "0" else "") ++ toString a

/-- Fixed two-decimal formatting of a rational, modelling fmt.Sprintf with the
verb %.2f on a float64 (exact decimal ties cannot arise from binary floats at
the third decimal, so half-away-from-zero rounding is a faithful model). -/
def fmt2 (q : ℚ) : String :=
  let n := goRound (q * 100)
  (if n < 0 then "-" else "") ++ toString (n.natAbs / 100) ++ "." ++ natPad2 (n.natAbs % 100)

/-- vat.go: the ValueAddedTax record. -/
structure ValueAddedTax where
  ID : String
  Code : ℤ
  Name : String
  Percentage : ℚ
deriving DecidableEq, Repr

/-- vat.go: standardVAT (ID "A", code 1, rate 18.00). -/
def standardVAT : ValueAddedTax :=
  { ID := "A", Code := 1, Name := "Standard ValueAddedTax", Percentage := 18 }

/-- vat.go: specialVAT (ID "B", code 2, rate 0.00). -/
def specialVAT : ValueAddedTax :=
  { ID := "B", Code := 2, Name := "Special ValueAddedTax", Percentage := 0 }

/-- vat.go: zeroVAT (ID "C", code 3, rate 0.00). -/
def zeroVAT : ValueAddedTax :=
  { ID := "C", Code := 3, Name := "Zero ValueAddedTax", Percentage := 0 }

/-- vat.go: specialReliefVAT (ID "D", code 4, rate 0.00). -/
def specialReliefVAT : ValueAddedTax :=
  { ID := "D", Code := 4, Name := "Special Relief ValueAddedTax", Percentage := 0 }

/-- vat.go: exemptedVAT (ID "E", code 5, rate 0.00). -/
def exemptedVAT : ValueAddedTax :=
  { ID := "E", Code := 5, Name := "Exempted ValueAddedTax", Percentage := 0 }

/-- vat.go ParseTaxCode: total resolution of a numeric tax code, defaulting to
the standard category for unrecognized codes. -/
def ParseTaxCode (code : ℤ) : ValueAddedTax :=
  if code = 1 then standardVAT
  else if code = 2 then specialVAT
  else if code = 3 then zeroVAT
  else if code = 4 then specialReliefVAT
  else if code = 5 then exemptedVAT
  else standardVAT

/-- vat.go (*ValueAddedTax).NetAmount: divide by 1 + rate/100, then round to
two decimals. -/
def ValueAddedTax.NetAmount (v : ValueAddedTax) (totalAmount : ℚ) : ℚ :=
  let rate := 1 + v.Percentage / 100
  let netAmount := totalAmount / rate
  round2 netAmount

/-- vat.go (*ValueAddedTax).Amount: the tax charged, computed as the remainder
after the rounded net amount, rounded to two decimals. -/
def ValueAddedTax.Amount (v : ValueAddedTax) (totalAmount : ℚ) : ℚ :=
  round2 (totalAmount - v.NetAmount totalAmount)

/-- vat.go NetAmount (package-level). -/
def NetAmount (taxCode : ℤ) (price : ℚ) : ℚ :=
  (ParseTaxCode taxCode).NetAmount price

/-- vat.go ValueAddedTaxAmount (package-level): price minus the rounded net
amount, rounded to two decimals. -/
def ValueAddedTaxAmount (taxCode : ℤ) (price : ℚ) : ℚ :=
  round2 (price - (ParseTaxCode taxCode).NetAmount price)

/-- vat.go ValueAddedTaxRate. -/
def ValueAddedTaxRate (taxCode : ℤ) : ℚ :=
  (ParseTaxCode taxCode).Percentage

/-- vat.go ValueAddedTaxID. -/
def ValueAddedTaxID (taxCode : ℤ) : String :=
  (ParseTaxCode taxCode).ID

/-- vat.go ReportTaxRateID: the "{id}-{rate:2dp}" key. -/
def ReportTaxRateID (taxCode : ℤ) : String :=
  (ParseTaxCode taxCode).ID ++ "-" ++ fmt2 (ParseTaxCode taxCode).Percentage

lemma goRound_intCast (k : ℤ) : goRound (k : ℚ) = k := by
  unfold goRound
  by_cases h : (0 : ℚ) ≤ (k : ℚ)
  · rw [if_pos h, add_comm, Int.floor_add_int]
    norm_num
  · rw [if_neg h]
    have hneg : -(k : ℚ) = ((-k : ℤ) : ℚ) := by push_cast; ring
    rw [hneg, add_comm, Int.floor_add_int]
    norm_num

lemma round2_mul100_int (x : ℚ) : round2 x * 100 = ((goRound (x * 100) : ℤ) : ℚ) := by
  unfold round2
  field_simp

lemma round2_eq_self (x : ℚ) (k : ℤ) (h : x * 100 = (k : ℚ)) : round2 x = x := by
  unfold round2
  rw [h, goRound_intCast, ← h]
  field_simp

/-- C1 counterexample: for tax code 3 and the positive amount 1/256 (a value a
float64 represents exactly), the rounded net amount is 0.00 and the remainder
rounds to 0.00, so net plus tax is 0, which is not the original amount. -/
theorem vat_reconstruction_cex :
    0 < (1/256 : ℚ) ∧ NetAmount 3 (1/256) + ValueAddedTaxAmount 3 (1/256) ≠ (1/256 : ℚ) := by
  have hz : ParseTaxCode 3 = zeroVAT := by norm_num [ParseTaxCode]
  have hnet : NetAmount 3 (1/256) = 0 := by
    rw [NetAmount, hz]
    show round2 ((1/256 : ℚ) / (1 + zeroVAT.Percentage / 100)) = 0
    norm_num [zeroVAT, round2, goRound]
  have htax : ValueAddedTaxAmount 3 (1/256) = 0 := by
    rw [ValueAddedTaxAmount, hz]
    have : (1/256 : ℚ) - zeroVAT.NetAmount (1/256) = 1/256 := by
      have : zeroVAT.NetAmount (1/256) = 0 := by
        show round2 ((1/256 : ℚ) / (1 + zeroVAT.Percentage / 100)) = 0
        norm_num [zeroVAT, round2, goRound]
      rw [this]; ring
    rw [this]
    norm_num [round2, goRound]
  rw [hnet, htax]
  norm_num

/-- C1 (amended): for every tax code and every positive amount that is a whole
number of cents, the rounded net amount plus the tax amount (computed as the
remainder after rounding net) reconstructs the amount exactly. -/
theorem vat_reconstruction (code : ℤ) (a : ℚ) (_hpos : 0 < a) (k : ℤ)
    (hk : a * 100 = (k : ℚ)) :
    NetAmount code a + ValueAddedTaxAmount code a = a := by
  have hnet : NetAmount code a * 100 =
      ((goRound ((a / (1 + (ParseTaxCode code).Percentage / 100)) * 100) : ℤ) : ℚ) := by
    show round2 (a / (1 + (ParseTaxCode code).Percentage / 100)) * 100 = _
    exact round2_mul100_int _
  have hdiff : (a - NetAmount code a) * 100 =
      (((k - goRound ((a / (1 + (ParseTaxCode code).Percentage / 100)) * 100)) : ℤ) : ℚ) := by
    push_cast
    rw [sub_mul, hk, hnet]
  have htax : ValueAddedTaxAmount code a = a - NetAmount code a := by
    show round2 (a - (ParseTaxCode code).NetAmount a) = _
    exact round2_eq_self _ _ hdiff
  rw [htax]
  ring

/-- Closed instance of the amended C1 reconstruction theorem: code 1 and the
amount 5 (500 cents) reconstruct exactly. -/
theorem vat_reconstruction_witness :
    NetAmount 1 5 + ValueAddedTaxAmount 1 5 = 5 :=
  vat_reconstruction 1 5 (by norm_num) 500 (by norm_num)

/-- receipt.go: the Item input record (Discount applies to the whole line). -/
structure Item where
  ID : String
  Description : String
  TaxCode : ℤ
  Quantity : ℚ
  UnitPrice : ℚ
  Discount : ℚ
deriving DecidableEq, Repr

/-- internal/models: the ITEM wire record (XMLName/Text omitted; they carry no
data in this pipeline). -/
structure MITEM where
  ID : String
  DESC : String
  QTY : ℚ
  TAXCODE : ℤ
  AMT : ℚ
deriving DecidableEq, Repr

/-- internal/models: the VATTOTAL wire record with stringified amounts. -/
structure MVATTOTAL where
  VATRATE : String
  NETTAMOUNT : String
  TAXAMOUNT : String
deriving DecidableEq, Repr

/-- internal/models: the PAYMENT wire record. -/
structure MPAYMENT where
  PMTTYPE : String
  PMTAMOUNT : String
deriving DecidableEq, Repr

/-- internal/models: the receipt TOTALS wire record. -/
structure MTOTALS where
  TOTALTAXEXCL : ℚ
  TOTALTAXINCL : ℚ
  DISCOUNT : ℚ
deriving DecidableEq, Repr

/-- receipt.go: the ItemProcessResponse returned by ProcessItems. The vatTotals
map of the source is rendered here in insertion order; the Go map iteration
order is unspecified, and no claim below depends on the order of VATTOTALS. -/
structure ItemProcessResponse where
  ITEMS : List MITEM
  VATTOTALS : List MVATTOTAL
  TOTALS : MTOTALS
deriving DecidableEq, Repr

/-- The loop state of ProcessItems: the three running totals, the per-category
accumulator map (as an insertion-ordered association list of id, net, tax), and
the rendered items. -/
structure PState where
  DISCOUNT : ℚ
  TOTALTAXEXCLUSIVE : ℚ
  TOTALTAXINCLUSIVE : ℚ
  vatTotals : List (String × ℚ × ℚ)
  ITEMS : List MITEM
deriving DecidableEq, Repr

/-- The per-category accumulator update of ProcessItems: seed the entry on the
first occurrence of a category id, add to it afterwards. -/
def updVat : List (String × ℚ × ℚ) → String → ℚ → ℚ → List (String × ℚ × ℚ)
  | [], k, n, t => [(k, n, t)]
  | (k', n', t') :: rest, k, n, t =>
      if k' = k then (k', n' + n, t' + t) :: rest
      else (k', n', t') :: updVat rest k n t

/-- The rendered per-item record: AMT is the gross amount quantity times unit
price (the discount is not subtracted here). -/
def renderITEM (it : Item) : MITEM :=
  { ID := it.ID, DESC := it.Description, QTY := it.Quantity,
    TAXCODE := it.TaxCode, AMT := it.Quantity * it.UnitPrice }

/-- The taxable amount of a line: gross amount minus the line discount. -/
def taxableAmount (it : Item) : ℚ :=
  it.Quantity * it.UnitPrice - it.Discount

/-- One iteration of the ProcessItems loop body (receipt.go). -/
def stepItem (s : PState) (it : Item) : PState :=
  let itemAmount := it.Quantity * it.UnitPrice
  let itemAmountWithoutDiscount := itemAmount - it.Discount
  { DISCOUNT := s.DISCOUNT + it.Discount
    TOTALTAXEXCLUSIVE :=
      s.TOTALTAXEXCLUSIVE + NetAmount it.TaxCode itemAmountWithoutDiscount
    TOTALTAXINCLUSIVE := s.TOTALTAXINCLUSIVE + itemAmountWithoutDiscount
    vatTotals :=
      updVat s.vatTotals ((ParseTaxCode it.TaxCode).ID)
        (NetAmount it.TaxCode itemAmountWithoutDiscount)
        (ValueAddedTaxAmount it.TaxCode itemAmountWithoutDiscount)
    ITEMS := s.ITEMS ++
      [{ ID := it.ID, DESC := it.Description, QTY := it.Quantity,
         TAXCODE := it.TaxCode, AMT := itemAmount }] }

/-- receipt.go ProcessItems: renders items, accumulates per-category VAT totals
and the three running monetary totals, then stringifies the per-category
amounts with %.2f. The totals record itself is returned unrounded. -/
def ProcessItems (items : List Item) : ItemProcessResponse :=
  let s := items.foldl stepItem
    { DISCOUNT := 0, TOTALTAXEXCLUSIVE := 0, TOTALTAXINCLUSIVE := 0,
      vatTotals := [], ITEMS := [] }
  { ITEMS := s.ITEMS
    VATTOTALS := s.vatTotals.map (fun e =>
      { VATRATE := e.1, NETTAMOUNT := fmt2 e.2.1, TAXAMOUNT := fmt2 e.2.2 })
    TOTALS :=
      { TOTALTAXEXCL := s.TOTALTAXEXCLUSIVE
        TOTALTAXINCL := s.TOTALTAXINCLUSIVE
        DISCOUNT := s.DISCOUNT } }

lemma foldl_stepItem_ITEMS (items : List Item) :
    ∀ s : PState, (items.foldl stepItem s).ITEMS = s.ITEMS ++ items.map renderITEM := by
  induction items with
  | nil => intro s; simp
  | cons it rest ih =>
      intro s
      simp only [List.foldl_cons, List.map_cons, ih]
      simp [stepItem, renderITEM]

lemma foldl_stepItem_DISCOUNT (items : List Item) :
    ∀ s : PState, (items.foldl stepItem s).DISCOUNT =
      s.DISCOUNT + (items.map (fun it => it.Discount)).sum := by
  induction items with
  | nil => intro s; simp
  | cons it rest ih =>
      intro s
      simp only [List.foldl_cons, List.map_cons, List.sum_cons, ih]
      simp [stepItem]
      ring

lemma foldl_stepItem_TTI (items : List Item) :
    ∀ s : PState, (items.foldl stepItem s).TOTALTAXINCLUSIVE =
      s.TOTALTAXINCLUSIVE + (items.map taxableAmount).sum := by
  induction items with
  | nil => intro s; simp
  | cons it rest ih =>
      intro s
      simp only [List.foldl_cons, List.map_cons, List.sum_cons, ih]
      simp [stepItem, taxableAmount]
      ring

lemma foldl_stepItem_TTE (items : List Item) :
    ∀ s : PState, (items.foldl stepItem s).TOTALTAXEXCLUSIVE =
      s.TOTALTAXEXCLUSIVE +
        (items.map (fun it => NetAmount it.TaxCode (taxableAmount it))).sum := by
  induction items with
  | nil => intro s; simp
  | cons it rest ih =>
      intro s
      simp only [List.foldl_cons, List.map_cons, List.sum_cons, ih]
      simp [stepItem, taxableAmount]
      ring

lemma updVat_keys (k : String) (n t : ℚ) : ∀ l : List (String × ℚ × ℚ),
    (updVat l k n t).map Prod.fst =
      if k ∈ l.map Prod.fst then l.map Prod.fst else l.map Prod.fst ++ [k] := by
  intro l
  induction l with
  | nil => simp [updVat]
  | cons e rest ih =>
      rcases e with ⟨k', n', t'⟩
      by_cases h : k' = k
      · subst h
        simp [updVat]
      · simp only [updVat, if_neg h, List.map_cons, ih]
        by_cases hk : k ∈ rest.map Prod.fst
        · rw [if_pos hk, if_pos (by simp [hk])]
        · have hne : ¬ k ∈ (k' :: rest.map Prod.fst) := by
            intro hmem
            rcases List.mem_cons.mp hmem with h1 | h1
            · exact h h1.symm
            · exact hk h1
          rw [if_neg hk, if_neg hne]
          simp

lemma updVat_keys_mem (l : List (String × ℚ × ℚ)) (k : String) (n t : ℚ) (x : String) :
    x ∈ (updVat l k n t).map Prod.fst ↔ x ∈ l.map Prod.fst ∨ x = k := by
  rw [updVat_keys]
  by_cases hk : k ∈ l.map Prod.fst
  · rw [if_pos hk]
    constructor
    · exact fun h => Or.inl h
    · rintro (h | rfl)
      · exact h
      · exact hk
  · rw [if_neg hk]
    simp [List.mem_append]

lemma foldl_stepItem_keys (items : List Item) :
    ∀ s : PState, ∀ x : String,
      (x ∈ ((items.foldl stepItem s).vatTotals.map Prod.fst) ↔
        x ∈ s.vatTotals.map Prod.fst ∨ ∃ it ∈ items, (ParseTaxCode it.TaxCode).ID = x) := by
  induction items with
  | nil => intro s x; simp
  | cons it rest ih =>
      intro s x
      simp only [List.foldl_cons]
      rw [ih]
      have hstep : (stepItem s it).vatTotals =
          updVat s.vatTotals ((ParseTaxCode it.TaxCode).ID)
            (NetAmount it.TaxCode (taxableAmount it))
            (ValueAddedTaxAmount it.TaxCode (taxableAmount it)) := rfl
      rw [hstep, updVat_keys_mem]
      constructor
      · rintro (⟨h | h⟩ | ⟨w, hw, hwid⟩)
        · exact Or.inl h
        · exact Or.inr ⟨it, by simp, h.symm⟩
        · exact Or.inr ⟨w, by simp [hw], hwid⟩
      · rintro (h | ⟨w, hw, hwid⟩)
        · exact Or.inl (Or.inl h)
        · rcases List.mem_cons.mp hw with h1 | h1
          · subst h1; exact Or.inl (Or.inr hwid.symm)
          · exact Or.inr ⟨w, h1, hwid⟩

/-- C9: ProcessItems renders one record per input item in input order with the
gross amount (quantity times unit price, discount not subtracted) as AMT, emits
a per-category VAT total exactly for the category ids touched by some item, and
returns the three monetary totals as plain unrounded sums. -/
theorem processItems_spec (items : List Item) :
    (ProcessItems items).ITEMS = items.map renderITEM ∧
    (∀ x : String,
      x ∈ (ProcessItems items).VATTOTALS.map (fun r => r.VATRATE) ↔
        ∃ it ∈ items, (ParseTaxCode it.TaxCode).ID = x) ∧
    (ProcessItems items).TOTALS =
      { TOTALTAXEXCL := (items.map (fun it => NetAmount it.TaxCode (taxableAmount it))).sum
        TOTALTAXINCL := (items.map taxableAmount).sum
        DISCOUNT := (items.map (fun it => it.Discount)).sum } := by
  refine ⟨?_, ?_, ?_⟩
  · show (items.foldl stepItem _).ITEMS = _
    rw [foldl_stepItem_ITEMS]
    simp
  · intro x
    show x ∈ ((items.foldl stepItem _).vatTotals.map _).map _ ↔ _
    rw [List.map_map]
    have hcomp : ((fun r : MVATTOTAL => r.VATRATE) ∘
        (fun e : String × ℚ × ℚ =>
          MVATTOTAL.mk e.1 (fmt2 e.2.1) (fmt2 e.2.2))) = Prod.fst := by
      funext e
      rfl
    rw [hcomp, foldl_stepItem_keys]
    simp
  · show MTOTALS.mk _ _ _ = _
    rw [foldl_stepItem_TTE, foldl_stepItem_TTI, foldl_stepItem_DISCOUNT]
    simp

/-- A concrete line item used to instantiate theorems: taxable, priced 2000,
quantity 5, whole-line discount 5000 (spec section 8, property 3). -/
def sampleItem : Item :=
  { ID := "1", Description := "d", TaxCode := 1, Quantity := 5, UnitPrice := 2000, Discount := 5000 }

/-- Closed instance of the C9 theorem at a concrete one-item input. -/
theorem processItems_spec_witness :
    (ProcessItems [sampleItem]).ITEMS =
      [{ ID := "1", DESC := "d", QTY := 5, TAXCODE := 1, AMT := 10000 }] ∧
    ((ProcessItems [sampleItem]).VATTOTALS.map (fun r => r.VATRATE) = ["A"]) := by
  have h := processItems_spec [sampleItem]
  refine ⟨?_, ?_⟩
  · rw [h.1]
    simp [renderITEM, sampleItem]
    norm_num
  · rfl

/-- part_000: PaymentType is a string recognized by the VFD server. -/
abbrev PaymentType := String

/-- part_000 CashPaymentType. -/
def CashPaymentType : PaymentType := "CASH"

/-- part_000 ChequePaymentType. -/
def ChequePaymentType : PaymentType := "CHEQUE"

/-- part_000 CreditCardPaymentType. -/
def CreditCardPaymentType : PaymentType := "CCARD"

/-- part_000 ElectronicPaymentType. -/
def ElectronicPaymentType : PaymentType := "EMONEY"

/-- part_000 InvoicePaymentType. -/
def InvoicePaymentType : PaymentType := "INVOICE"

/-- part_000: the Payment input record; the source field Type is a reserved
word in Lean and is rendered as Type'. -/
structure Payment where
  Type' : PaymentType
  Amount : ℚ
deriving DecidableEq, Repr

/-- part_000: the VATTOTAL input record of the report path. -/
structure VATTOTAL where
  ID : String
  Rate : ℚ
  TaxAmount : ℚ
  NetAmount : ℚ
deriving DecidableEq, Repr

/-- The five canonical VAT keys of sumVatTotals, in source order. -/
def keyA : String := "A-18.00"

/-- Canonical key of the special category. -/
def keyB : String := "B-0.00"

/-- Canonical key of the zero category. -/
def keyC : String := "C-0.00"

/-- Canonical key of the special-relief category. -/
def keyD : String := "D-0.00"

/-- Canonical key of the exempted category. -/
def keyE : String := "E-0.00"

/-- The canonical VAT key list in the fixed output order. -/
def canonicalVatKeys : List String := [keyA, keyB, keyC, keyD, keyE]

/-- The canonical payment type list in the fixed output order. -/
def canonicalPayTypes : List String :=
  [CashPaymentType, ChequePaymentType, CreditCardPaymentType,
    ElectronicPaymentType, InvoicePaymentType]

/-- The key "{id}-{rate:2dp}" formed by sumVatTotals for an input entry. -/
def vatKeyOf (v : VATTOTAL) : String :=
  v.ID ++ "-" ++ fmt2 v.Rate

/-- One loop iteration of sumVatTotals: add net and tax amounts at the formed
key. The Go map is modelled as a total function with zero-struct default, which
matches reading a missing key in Go. -/
def applyVat (m : String → ℚ × ℚ) (v : VATTOTAL) : String → ℚ × ℚ :=
  fun key =>
    if key = vatKeyOf v then ((m (vatKeyOf v)).1 + v.NetAmount, (m (vatKeyOf v)).2 + v.TaxAmount)
    else m key

/-- part_002 sumVatTotals: fold the entries into the keyed map, then emit the
five canonical categories in fixed order with %.2f-formatted amounts. -/
def sumVatTotals (vats : List VATTOTAL) : List MVATTOTAL :=
  let m := vats.foldl applyVat (fun _ => (0, 0))
  [ { VATRATE := keyA, NETTAMOUNT := fmt2 (m keyA).1, TAXAMOUNT := fmt2 (m keyA).2 },
    { VATRATE := keyB, NETTAMOUNT := fmt2 (m keyB).1, TAXAMOUNT := fmt2 (m keyB).2 },
    { VATRATE := keyC, NETTAMOUNT := fmt2 (m keyC).1, TAXAMOUNT := fmt2 (m keyC).2 },
    { VATRATE := keyD, NETTAMOUNT := fmt2 (m keyD).1, TAXAMOUNT := fmt2 (m keyD).2 },
    { VATRATE := keyE, NETTAMOUNT := fmt2 (m keyE).1, TAXAMOUNT := fmt2 (m keyE).2 } ]

/-- One loop iteration of sumPayments: add the amount at the payment type. -/
def applyPayment (m : String → ℚ) (p : Payment) : String → ℚ :=
  fun key => if key = p.Type' then m p.Type' + p.Amount else m key

/-- part_002 sumPayments: fold the payments into the keyed map, then emit the
five canonical payment types in fixed order with %.2f-formatted amounts. -/
def sumPayments (payments : List Payment) : List MPAYMENT :=
  let m := payments.foldl applyPayment (fun _ => 0)
  [ { PMTTYPE := CashPaymentType, PMTAMOUNT := fmt2 (m CashPaymentType) },
    { PMTTYPE := ChequePaymentType, PMTAMOUNT := fmt2 (m ChequePaymentType) },
    { PMTTYPE := CreditCardPaymentType, PMTAMOUNT := fmt2 (m CreditCardPaymentType) },
    { PMTTYPE := ElectronicPaymentType, PMTAMOUNT := fmt2 (m ElectronicPaymentType) },
    { PMTTYPE := InvoicePaymentType, PMTAMOUNT := fmt2 (m InvoicePaymentType) } ]

lemma fmt2_zero : fmt2 0 = "0.00" := by
  norm_num [fmt2, goRound, natPad2]
  rfl

lemma foldl_applyVat_untouched (vats : List VATTOTAL) :
    ∀ m : String → ℚ × ℚ, ∀ key : String,
      (∀ v ∈ vats, vatKeyOf v ≠ key) → vats.foldl applyVat m key = m key := by
  induction vats with
  | nil => intro m key _; rfl
  | cons v rest ih =>
      intro m key h
      have hv : vatKeyOf v ≠ key := h v (by simp)
      have hrest : ∀ w ∈ rest, vatKeyOf w ≠ key := fun w hw => h w (by simp [hw])
      simp only [List.foldl_cons]
      rw [ih _ key hrest]
      have hv' : key ≠ vatKeyOf v := fun hh => hv hh.symm
      simp [applyVat, hv']

lemma foldl_applyVat_agree (k0 : String) (vats : List VATTOTAL) :
    ∀ m1 m2 : String → ℚ × ℚ, (∀ key, key ≠ k0 → m1 key = m2 key) →
      ∀ key, key ≠ k0 → vats.foldl applyVat m1 key = vats.foldl applyVat m2 key := by
  induction vats with
  | nil => intro m1 m2 h key hk; exact h key hk
  | cons v rest ih =>
      intro m1 m2 h key hk
      simp only [List.foldl_cons]
      refine ih (applyVat m1 v) (applyVat m2 v) ?_ key hk
      intro key2 hk2
      by_cases hv : key2 = vatKeyOf v
      · subst hv
        simp only [applyVat, if_pos rfl]
        rw [h _ hk2]
      · simp only [applyVat, if_neg hv]
        exact h _ hk2

lemma foldl_applyPayment_untouched (payments : List Payment) :
    ∀ m : String → ℚ, ∀ key : String,
      (∀ p ∈ payments, p.Type' ≠ key) → payments.foldl applyPayment m key = m key := by
  induction payments with
  | nil => intro m key _; rfl
  | cons p rest ih =>
      intro m key h
      have hp : p.Type' ≠ key := h p (by simp)
      have hrest : ∀ q ∈ rest, q.Type' ≠ key := fun q hq => h q (by simp [hq])
      simp only [List.foldl_cons]
      rw [ih _ key hrest]
      have hp' : key ≠ p.Type' := fun hh => hp hh.symm
      simp [applyPayment, hp']

lemma foldl_applyPayment_agree (k0 : String) (payments : List Payment) :
    ∀ m1 m2 : String → ℚ, (∀ key, key ≠ k0 → m1 key = m2 key) →
      ∀ key, key ≠ k0 → payments.foldl applyPayment m1 key = payments.foldl applyPayment m2 key := by
  induction payments with
  | nil => intro m1 m2 h key hk; exact h key hk
  | cons p rest ih =>
      intro m1 m2 h key hk
      simp only [List.foldl_cons]
      refine ih (applyPayment m1 p) (applyPayment m2 p) ?_ key hk
      intro key2 hk2
      by_cases hp : key2 = p.Type'
      · subst hp
        simp only [applyPayment, if_pos rfl]
        rw [h _ hk2]
      · simp only [applyPayment, if_neg hp]
        exact h _ hk2

/-- C4: for every input list of VAT entries and every input list of payments,
the Z-report aggregation emits exactly the five canonical VAT categories in the
fixed order A-18.00, B-0.00, C-0.00, D-0.00, E-0.00 and exactly the five
canonical payment types in the fixed order CASH, CHEQUE, CCARD, EMONEY,
INVOICE, with amount 0.00 for every category or payment type not touched by
any input entry. -/
theorem report_aggregation_fixed_shape (vats : List VATTOTAL) (payments : List Payment) :
    ((sumVatTotals vats).map (fun r => r.VATRATE) = canonicalVatKeys) ∧
    ((sumPayments payments).map (fun r => r.PMTTYPE) = canonicalPayTypes) ∧
    (∀ r ∈ sumVatTotals vats, (∀ v ∈ vats, vatKeyOf v ≠ r.VATRATE) →
      r.NETTAMOUNT = "0.00" ∧ r.TAXAMOUNT = "0.00") ∧
    (∀ r ∈ sumPayments payments, (∀ p ∈ payments, p.Type' ≠ r.PMTTYPE) →
      r.PMTAMOUNT = "0.00") := by
  refine ⟨rfl, rfl, ?_, ?_⟩
  · intro r hr huntouched
    have hm : ∀ key : String, (∀ v ∈ vats, vatKeyOf v ≠ key) →
        vats.foldl applyVat (fun _ => ((0 : ℚ), (0 : ℚ))) key = (0, 0) :=
      fun key h => foldl_applyVat_untouched vats _ key h
    simp only [sumVatTotals, List.mem_cons, List.not_mem_nil, or_false] at hr
    rcases hr with rfl | rfl | rfl | rfl | rfl <;>
      · rw [hm _ huntouched] at *
        exact ⟨fmt2_zero, fmt2_zero⟩
  · intro r hr huntouched
    have hm : ∀ key : String, (∀ p ∈ payments, p.Type' ≠ key) →
        payments.foldl applyPayment (fun _ => (0 : ℚ)) key = 0 :=
      fun key h => foldl_applyPayment_untouched payments _ key h
    simp only [sumPayments, List.mem_cons, List.not_mem_nil, or_false] at hr
    rcases hr with rfl | rfl | rfl | rfl | rfl <;>
      · rw [hm _ huntouched] at *
        exact fmt2_zero

/-- Closed instance of the C4 theorem: on empty inputs the aggregation still
yields the five canonical categories and payment types, all zero. -/
theorem report_aggregation_fixed_shape_witness :
    ((sumVatTotals []).map (fun r => r.VATRATE) = canonicalVatKeys) ∧
    ((sumPayments []).map (fun r => r.PMTTYPE) = canonicalPayTypes) ∧
    ((MVATTOTAL.mk keyA (fmt2 0) (fmt2 0)).NETTAMOUNT = "0.00" ∧
      (MVATTOTAL.mk keyA (fmt2 0) (fmt2 0)).TAXAMOUNT = "0.00") ∧
    (MPAYMENT.mk CashPaymentType (fmt2 0)).PMTAMOUNT = "0.00" := by
  obtain ⟨h1, h2, h3, h4⟩ := report_aggregation_fixed_shape [] []
  refine ⟨h1, h2, ?_, ?_⟩
  · exact h3 (MVATTOTAL.mk keyA (fmt2 0) (fmt2 0)) (by simp [sumVatTotals]) (by simp)
  · exact h4 (MPAYMENT.mk CashPaymentType (fmt2 0)) (by simp [sumPayments]) (by simp)

/-- C5: an input VAT entry whose formed key "{id}-{rate:2dp}" is not one of the
five canonical keys, and a payment whose type string is not one of the five
canonical type strings, contribute nothing to the aggregation output: removing
the entry leaves the output unchanged, and no error is possible (the functions
are total). -/
theorem report_aggregation_drops_unmatched (pre post : List VATTOTAL) (v : VATTOTAL)
    (pays1 pays2 : List Payment) (p : Payment)
    (hv : vatKeyOf v ∉ canonicalVatKeys) (hp : p.Type' ∉ canonicalPayTypes) :
    sumVatTotals (pre ++ v :: post) = sumVatTotals (pre ++ post) ∧
    sumPayments (pays1 ++ p :: pays2) = sumPayments (pays1 ++ pays2) := by
  constructor
  · have hagree : ∀ key, key ≠ vatKeyOf v →
        (pre ++ v :: post).foldl applyVat (fun _ => ((0 : ℚ), (0 : ℚ))) key =
          (pre ++ post).foldl applyVat (fun _ => ((0 : ℚ), (0 : ℚ))) key := by
      intro key hk
      rw [List.foldl_append, List.foldl_append, List.foldl_cons]
      refine foldl_applyVat_agree (vatKeyOf v) post _ _ ?_ key hk
      intro key2 hk2
      simp [applyVat, hk2]
    have hkey : ∀ key ∈ canonicalVatKeys, key ≠ vatKeyOf v := by
      intro key hkmem heq
      exact hv (heq ▸ hkmem)
    have eA := hagree keyA (hkey keyA (by simp [canonicalVatKeys]))
    have eB := hagree keyB (hkey keyB (by simp [canonicalVatKeys]))
    have eC := hagree keyC (hkey keyC (by simp [canonicalVatKeys]))
    have eD := hagree keyD (hkey keyD (by simp [canonicalVatKeys]))
    have eE := hagree keyE (hkey keyE (by simp [canonicalVatKeys]))
    simp only [sumVatTotals]
    rw [eA, eB, eC, eD, eE]
  · have hagree : ∀ key, key ≠ p.Type' →
        (pays1 ++ p :: pays2).foldl applyPayment (fun _ => (0 : ℚ)) key =
          (pays1 ++ pays2).foldl applyPayment (fun _ => (0 : ℚ)) key := by
      intro key hk
      rw [List.foldl_append, List.foldl_append, List.foldl_cons]
      refine foldl_applyPayment_agree p.Type' pays2 _ _ ?_ key hk
      intro key2 hk2
      simp [applyPayment, hk2]
    have hkey : ∀ key ∈ canonicalPayTypes, key ≠ p.Type' := by
      intro key hkmem heq
      exact hp (heq ▸ hkmem)
    have e1 := hagree CashPaymentType (hkey CashPaymentType (by simp [canonicalPayTypes]))
    have e2 := hagree ChequePaymentType (hkey ChequePaymentType (by simp [canonicalPayTypes]))
    have e3 := hagree CreditCardPaymentType (hkey CreditCardPaymentType (by simp [canonicalPayTypes]))
    have e4 := hagree ElectronicPaymentType (hkey ElectronicPaymentType (by simp [canonicalPayTypes]))
    have e5 := hagree InvoicePaymentType (hkey InvoicePaymentType (by simp [canonicalPayTypes]))
    simp only [sumPayments]
    rw [e1, e2, e3, e4, e5]

/-- A VAT entry whose formed key F-18.00 matches no canonical key. -/
def strayVat : VATTOTAL := { ID := "F", Rate := 18, TaxAmount := 2, NetAmount := 1 }

/-- A payment whose type string matches no canonical payment type. -/
def strayPayment : Payment := { Type' := "BITCOIN", Amount := 5 }

/-- Closed instance of the C5 theorem: dropping the stray entries leaves both
aggregation outputs unchanged. -/
theorem report_aggregation_drops_unmatched_witness :
    sumVatTotals ([] ++ strayVat :: []) = sumVatTotals ([] ++ []) ∧
    sumPayments ([] ++ strayPayment :: []) = sumPayments ([] ++ []) := by
  have hkeyF : vatKeyOf strayVat = "F-18.00" := by
    show "F" ++ "-" ++ fmt2 (18 : ℚ) = "F-18.00"
    norm_num [fmt2, goRound, natPad2]
    rfl
  refine report_aggregation_drops_unmatched [] [] strayVat [] [] strayPayment ?_ ?_
  · rw [hkeyF]
    decide
  · show ("BITCOIN" : String) ∉ canonicalPayTypes
    decide

/-- crypto.go collaborators: the RSA/SHA-1/base64 primitives used by the
signing entry points, abstracted over their concrete library implementations.
The field rsaSign models rsa.SignPKCS1v15 applied to a digest (deterministic
for PKCS#1 v1.5), rsaVerify models rsa.VerifyPKCS1v15, sha1 the SHA-1 digest,
and b64enc/b64dec the standard base64 encoding of a raw signature. -/
structure Crypto (K Pub H Sig : Type) where
  pub : K → Pub
  sha1 : String → H
  rsaSign : K → H → Except String Sig
  rsaVerify : Pub → H → Sig → Except String Unit
  b64enc : Sig → String
  b64dec : String → Except String Sig

/-- crypto.go signPayload (lowercase): hash the payload with SHA-1 and sign
the digest with RSA PKCS#1 v1.5. -/
def signPayload (c : Crypto K Pub H Sig) (privateKey : K) (payload : String) :
    Except String Sig :=
  c.rsaSign privateKey (c.sha1 payload)

/-- crypto.go Sign: sign, then self-verify the raw signature against the
public key over the SHA-1 digest of the same payload; a verification failure
is returned as an error and the signature is not returned. -/
def Sign (c : Crypto K Pub H Sig) (privateKey : K) (payload : String) :
    Except String Sig :=
  match signPayload c privateKey payload with
  | Except.error e => Except.error ("unable to sign the payload: " ++ e)
  | Except.ok signature =>
      match c.rsaVerify (c.pub privateKey) (c.sha1 payload) signature with
      | Except.error e => Except.error ("could not verify signature " ++ e)
      | Except.ok _ => Except.ok signature

/-- crypto.go VerifySignature: decode the base64 signature, recompute the
SHA-1 digest, verify PKCS#1 v1.5; any decode or verify failure is reported. -/
def VerifySignature (c : Crypto K Pub H Sig) (publicKey : Pub) (payload : String)
    (signature : String) : Except String Unit :=
  match c.b64dec signature with
  | Except.error e => Except.error ("could not verify signature " ++ e)
  | Except.ok sg =>
      match c.rsaVerify publicKey (c.sha1 payload) sg with
      | Except.error e => Except.error ("could not verify signature " ++ e)
      | Except.ok _ => Except.ok ()

/-- crypto.go SignPayload (exported): sign, then self-verify through the
base64-level VerifySignature; a verification failure is returned as an error
and the signature is not returned. -/
def SignPayload (c : Crypto K Pub H Sig) (privateKey : K) (payload : String) :
    Except String Sig :=
  match signPayload c privateKey payload with
  | Except.error e => Except.error ("unable to sign the payload: " ++ e)
  | Except.ok out =>
      match VerifySignature c (c.pub privateKey) payload (c.b64enc out) with
      | Except.error e => Except.error ("invalid signature " ++ e)
      | Except.ok _ => Except.ok out

/-- C7: each signing entry point returns a signature only when that signature
self-verifies against the matching public key over the same payload; when
self-verification fails the entry point returns an error carrying the
verification message, never a signature. -/
theorem sign_self_verifies (c : Crypto K Pub H Sig) (privateKey : K)
    (payload : String) (sig : Sig) :
    (Sign c privateKey payload = Except.ok sig →
      c.rsaVerify (c.pub privateKey) (c.sha1 payload) sig = Except.ok ()) ∧
    (SignPayload c privateKey payload = Except.ok sig →
      VerifySignature c (c.pub privateKey) payload (c.b64enc sig) = Except.ok ()) ∧
    (∀ e : String, signPayload c privateKey payload = Except.ok sig →
      c.rsaVerify (c.pub privateKey) (c.sha1 payload) sig = Except.error e →
      Sign c privateKey payload = Except.error ("could not verify signature " ++ e)) := by
  refine ⟨?_, ?_, ?_⟩
  · intro h
    cases hs : signPayload c privateKey payload with
    | error e =>
        simp only [Sign, hs] at h
        exact Except.noConfusion h
    | ok s0 =>
        cases hv : c.rsaVerify (c.pub privateKey) (c.sha1 payload) s0 with
        | error e =>
            simp only [Sign, hs, hv] at h
            exact Except.noConfusion h
        | ok u =>
            cases u
            simp only [Sign, hs, hv, Except.ok.injEq] at h
            subst h
            exact hv
  · intro h
    cases hs : signPayload c privateKey payload with
    | error e =>
        simp only [SignPayload, hs] at h
        exact Except.noConfusion h
    | ok s0 =>
        cases hv : VerifySignature c (c.pub privateKey) payload (c.b64enc s0) with
        | error e =>
            simp only [SignPayload, hs, hv] at h
            exact Except.noConfusion h
        | ok u =>
            cases u
            simp only [SignPayload, hs, hv, Except.ok.injEq] at h
            subst h
            exact hv
  · intro e hs hv
    simp only [Sign, hs, hv]

/-- A trivial concrete instantiation of the crypto collaborators in which
signing and verification always succeed. -/
def trivialCrypto : Crypto Unit Unit Unit Unit :=
  { pub := fun _ => ()
    sha1 := fun _ => ()
    rsaSign := fun _ _ => Except.ok ()
    rsaVerify := fun _ _ _ => Except.ok ()
    b64enc := fun _ => "U0lH"
    b64dec := fun _ => Except.ok () }

/-- Closed instance of the C7 theorem at the trivial crypto collaborators. -/
theorem sign_self_verifies_witness :
    trivialCrypto.rsaVerify (trivialCrypto.pub ()) (trivialCrypto.sha1 ("PAYLOAD")) () =
      Except.ok () :=
  (sign_self_verifies trivialCrypto () ("PAYLOAD") ()).1 rfl

/-- C10: assuming only that base64 decoding inverts base64 encoding, the two
signing entry points agree: Sign returns a signature exactly when SignPayload
returns the same signature, both equal the deterministic RSA PKCS#1 v1.5
signature of the SHA-1 digest, and every returned signature verifies under
VerifySignature with the matching public key. -/
theorem sign_signPayload_equiv (c : Crypto K Pub H Sig)
    (hrt : ∀ s : Sig, c.b64dec (c.b64enc s) = Except.ok s)
    (privateKey : K) (payload : String) (sig : Sig) :
    (Sign c privateKey payload = Except.ok sig ↔
      SignPayload c privateKey payload = Except.ok sig) ∧
    (Sign c privateKey payload = Except.ok sig →
      c.rsaSign privateKey (c.sha1 payload) = Except.ok sig) ∧
    (Sign c privateKey payload = Except.ok sig →
      VerifySignature c (c.pub privateKey) payload (c.b64enc sig) = Except.ok ()) := by
  have hVS : ∀ s0 : Sig,
      VerifySignature c (c.pub privateKey) payload (c.b64enc s0) =
        match c.rsaVerify (c.pub privateKey) (c.sha1 payload) s0 with
        | Except.error e => Except.error ("could not verify signature " ++ e)
        | Except.ok _ => Except.ok () := by
    intro s0
    simp only [VerifySignature, hrt s0]
  cases hs : signPayload c privateKey payload with
  | error e =>
      refine ⟨?_, ?_, ?_⟩
      · constructor
        · intro h
          simp only [Sign, hs] at h
          exact Except.noConfusion h
        · intro h
          simp only [SignPayload, hs] at h
          exact Except.noConfusion h
      · intro h
        simp only [Sign, hs] at h
        exact Except.noConfusion h
      · intro h
        simp only [Sign, hs] at h
        exact Except.noConfusion h
  | ok s0 =>
      cases hv : c.rsaVerify (c.pub privateKey) (c.sha1 payload) s0 with
      | error e =>
          refine ⟨?_, ?_, ?_⟩
          · constructor
            · intro h
              simp only [Sign, hs, hv] at h
              exact Except.noConfusion h
            · intro h
              simp only [SignPayload, hs, hVS s0, hv] at h
              exact Except.noConfusion h
          · intro h
            simp only [Sign, hs, hv] at h
            exact Except.noConfusion h
          · intro h
            simp only [Sign, hs, hv] at h
            exact Except.noConfusion h
      | ok u =>
          cases u
          have hsign : Sign c privateKey payload = Except.ok s0 := by
            simp only [Sign, hs, hv]
          have hsignP : SignPayload c privateKey payload = Except.ok s0 := by
            simp only [SignPayload, hs, hVS s0, hv]
          refine ⟨?_, ?_, ?_⟩
          · rw [hsign, hsignP]
          · intro h
            rw [hsign, Except.ok.injEq] at h
            subst h
            exact hs
          · intro h
            rw [hsign, Except.ok.injEq] at h
            subst h
            simp only [hVS s0, hv]

/-- Closed instance of the C10 theorem at the trivial crypto collaborators. -/
theorem sign_signPayload_equiv_witness :
    Sign trivialCrypto () ("PAYLOAD") = Except.ok () ↔
      SignPayload trivialCrypto () ("PAYLOAD") = Except.ok () :=
  (sign_signPayload_equiv trivialCrypto (fun _ => rfl) () ("PAYLOAD") ()).1

/-- receipt.go: ReceiptParams. -/
structure ReceiptParams where
  Date : String
  Time : String
  TIN : String
  RegistrationID : String
  EFDSerial : String
  ReceiptNum : String
  DailyCounter : ℤ
  GlobalCounter : ℤ
  ZNum : String
  ReceiptVNum : String
deriving DecidableEq, Repr

/-- receipt.go: Customer; the source field Type (a CustomerID integer) is a
reserved word in Lean and is rendered as CustType. -/
structure Customer where
  CustType : ℤ
  ID : String
  Name : String
  Mobile : String
deriving DecidableEq, Repr

/-- internal/models: the RCT wire structure (XMLName/Text omitted). -/
structure RCT where
  DATE : String
  TIME : String
  TIN : String
  REGID : String
  EFDSERIAL : String
  CUSTIDTYPE : ℤ
  CUSTID : String
  CUSTNAME : String
  MOBILENUM : String
  RCTNUM : String
  DC : ℤ
  GC : ℤ
  ZNUM : String
  RCTVNUM : String
  ITEMS : List MITEM
  TOTALS : MTOTALS
  PAYMENTS : List MPAYMENT
  VATTOTALS : List MVATTOTAL
deriving DecidableEq, Repr

/-- internal/models (*RCT).RoundOff: rounds the three TOTALS fields to two
decimal places; no other field of the structure is touched. -/
def RCT.RoundOff (r : RCT) : RCT :=
  { r with TOTALS :=
      { TOTALTAXEXCL := round2 r.TOTALS.TOTALTAXEXCL
        TOTALTAXINCL := round2 r.TOTALS.TOTALTAXINCL
        DISCOUNT := round2 r.TOTALS.DISCOUNT } }

/-- receipt.go generateReceipt: renders payments, processes the items, fills
the RCT structure and applies RCT.RoundOff before returning. -/
def generateReceipt (params : ReceiptParams) (customer : Customer)
    (items : List Item) (payments : List Payment) : RCT :=
  let rctPayments := payments.map (fun p =>
    ({ PMTTYPE := p.Type', PMTAMOUNT := fmt2 p.Amount } : MPAYMENT))
  let RESULTS := ProcessItems items
  RCT.RoundOff
    { DATE := params.Date, TIME := params.Time, TIN := params.TIN,
      REGID := params.RegistrationID, EFDSERIAL := params.EFDSerial,
      CUSTIDTYPE := customer.CustType, CUSTID := customer.ID,
      CUSTNAME := customer.Name, MOBILENUM := customer.Mobile,
      RCTNUM := params.ReceiptNum, DC := params.DailyCounter,
      GC := params.GlobalCounter, ZNUM := params.ZNum,
      RCTVNUM := params.ReceiptVNum, ITEMS := RESULTS.ITEMS,
      TOTALS := RESULTS.TOTALS, PAYMENTS := rctPayments,
      VATTOTALS := RESULTS.VATTOTALS }

/-- part_002: ReportTotals input record. -/
structure ReportTotals where
  DailyTotalAmount : ℚ
  Gross : ℚ
  Corrections : ℚ
  Discounts : ℚ
  Surcharges : ℚ
  TicketsVoid : ℤ
  TicketsVoidTotal : ℚ
  TicketsFiscal : ℤ
  TicketsNonFiscal : ℤ
deriving DecidableEq, Repr

/-- part_002: ReportParams input record. -/
structure ReportParams where
  Date : String
  Time : String
  VRN : String
  TIN : String
  UIN : String
  TaxOffice : String
  RegistrationID : String
  ZNumber : String
  EFDSerial : String
  RegistrationDate : String
deriving DecidableEq, Repr

/-- part_002: Address input record. -/
structure Address where
  Name : String
  Street : String
  Mobile : String
  City : String
  Country : String
deriving DecidableEq, Repr

/-- part_002 (*Address).AsList: the four header lines. -/
def Address.AsList (a : Address) : List String :=
  [a.Name.toUpper, a.Street.toUpper, "MOBILE: " ++ a.Mobile,
    (a.City ++ "," ++ a.Country).toUpper]

/-- internal/models: the report TOTALS wire structure. -/
structure REPORTTOTALS where
  DAILYTOTALAMOUNT : ℚ
  GROSS : ℚ
  CORRECTIONS : ℚ
  DISCOUNTS : ℚ
  SURCHARGES : ℚ
  TICKETSVOID : ℤ
  TICKETSVOIDTOTAL : ℚ
  TICKETSFISCAL : ℤ
  TICKETSNONFISCAL : ℤ
deriving DecidableEq, Repr

/-- internal/models: the ZREPORT wire structure (XMLName/Text omitted; the
CHANGES sub-struct is flattened to its two string fields). -/
structure ZREPORT where
  DATE : String
  TIME : String
  HEADER : List String
  VRN : String
  TIN : String
  TAXOFFICE : String
  REGID : String
  ZNUMBER : String
  EFDSERIAL : String
  REGISTRATIONDATE : String
  USER : String
  SIMIMSI : String
  TOTALS : REPORTTOTALS
  VATTOTALS : List MVATTOTAL
  PAYMENTS : List MPAYMENT
  VATCHANGENUM : String
  HEADCHANGENUM : String
  ERRORS : String
  FWVERSION : String
  FWCHECKSUM : String
deriving DecidableEq, Repr

/-- internal/models (*ZREPORT).RoundOff: rounds the six float64 totals fields
to two decimal places. In the source this helper exists and is documented, but
its only call site in generateZReport is commented out. -/
def ZREPORT.RoundOff (z : ZREPORT) : ZREPORT :=
  { z with TOTALS :=
      { z.TOTALS with
        DAILYTOTALAMOUNT := round2 z.TOTALS.DAILYTOTALAMOUNT
        GROSS := round2 z.TOTALS.GROSS
        CORRECTIONS := round2 z.TOTALS.CORRECTIONS
        DISCOUNTS := round2 z.TOTALS.DISCOUNTS
        SURCHARGES := round2 z.TOTALS.SURCHARGES
        TICKETSVOIDTOTAL := round2 z.TOTALS.TICKETSVOIDTOTAL } }

/-- part_002 generateZReport: aggregates payments and VAT entries, copies the
totals verbatim and fills the fixed fields. The source line report.RoundOff()
is commented out, so no rounding is applied here, faithfully to the source. -/
def generateZReport (params : ReportParams) (address : Address)
    (vats : List VATTOTAL) (payments : List Payment) (totals : ReportTotals) : ZREPORT :=
  { DATE := params.Date, TIME := params.Time, HEADER := address.AsList,
    VRN := params.VRN, TIN := params.TIN, TAXOFFICE := params.TaxOffice,
    REGID := params.RegistrationID, ZNUMBER := params.ZNumber,
    EFDSERIAL := params.EFDSerial, REGISTRATIONDATE := params.RegistrationDate,
    USER := params.UIN, SIMIMSI := "WEBAPI",
    TOTALS :=
      { DAILYTOTALAMOUNT := totals.DailyTotalAmount, GROSS := totals.Gross,
        CORRECTIONS := totals.Corrections, DISCOUNTS := totals.Discounts,
        SURCHARGES := totals.Surcharges, TICKETSVOID := totals.TicketsVoid,
        TICKETSVOIDTOTAL := totals.TicketsVoidTotal,
        TICKETSFISCAL := totals.TicketsFiscal,
        TICKETSNONFISCAL := totals.TicketsNonFiscal },
    VATTOTALS := sumVatTotals vats, PAYMENTS := sumPayments payments,
    VATCHANGENUM := "0", HEADCHANGENUM := "0", ERRORS := "",
    FWVERSION := "3.0", FWCHECKSUM := "WEBAPI" }

/-- Report params with empty strings, used for concrete instances. -/
def emptyReportParams : ReportParams :=
  { Date := "", Time := "", VRN := "", TIN := "", UIN := "", TaxOffice := "",
    RegistrationID := "", ZNumber := "", EFDSerial := "", RegistrationDate := "" }

/-- Address with empty strings, used for concrete instances. -/
def emptyAddress : Address :=
  { Name := "", Street := "", Mobile := "", City := "", Country := "" }

/-- Report totals whose Corrections value 1/256 (float64-representable) is not
a two-decimal value. -/
def unroundedTotals : ReportTotals :=
  { DailyTotalAmount := 0, Gross := 0, Corrections := 1/256, Discounts := 0,
    Surcharges := 0, TicketsVoid := 0, TicketsVoidTotal := 0, TicketsFiscal := 0,
    TicketsNonFiscal := 0 }

/-- C2 (code bug): the report builder does not round the monetary fields of
the assembled ZREPORT before serialization: generateZReport copies Corrections
verbatim (the report.RoundOff() call is commented out in the source), the
copied value is not two-decimal-rounded, and the existing but uncalled
ZREPORT.RoundOff would have changed it. -/
theorem zreport_totals_not_rounded :
    (generateZReport emptyReportParams emptyAddress [] [] unroundedTotals).TOTALS.CORRECTIONS
        = 1/256 ∧
    round2 ((generateZReport emptyReportParams emptyAddress [] []
        unroundedTotals).TOTALS.CORRECTIONS) ≠
      (generateZReport emptyReportParams emptyAddress [] []
        unroundedTotals).TOTALS.CORRECTIONS ∧
    ((generateZReport emptyReportParams emptyAddress [] []
        unroundedTotals).RoundOff).TOTALS.CORRECTIONS ≠
      (generateZReport emptyReportParams emptyAddress [] []
        unroundedTotals).TOTALS.CORRECTIONS := by
  have h1 : (generateZReport emptyReportParams emptyAddress [] []
      unroundedTotals).TOTALS.CORRECTIONS = 1/256 := rfl
  have h2 : round2 (1/256 : ℚ) = 0 := by
    norm_num [round2, goRound]
  refine ⟨h1, ?_, ?_⟩
  · rw [h1, h2]
    norm_num
  · show round2 ((generateZReport emptyReportParams emptyAddress [] []
        unroundedTotals).TOTALS.CORRECTIONS) ≠ _
    rw [h1, h2]
    norm_num

/-- The literal wrapper tag stripped by the canonicalization step. -/
def tagPAYMENTOpen : String := "<PAYMENT>"

/-- The closing payment wrapper tag. -/
def tagPAYMENTClose : String := "</PAYMENT>"

/-- The opening VAT-total wrapper tag. -/
def tagVATTOTALOpen : String := "<VATTOTAL>"

/-- The closing VAT-total wrapper tag. -/
def tagVATTOTALClose : String := "</VATTOTAL>"

/-- If the pattern is a character-prefix of the list, return the remainder. -/
def dropPre : List Char → List Char → Option (List Char)
  | [], l => some l
  | _ :: _, [] => none
  | p :: ps, c :: cs => if c = p then dropPre ps cs else none

/-- Try each pattern at the head of the list, first match wins. -/
def firstTagMatch : List (List Char) → List Char → Option (List Char)
  | [], _ => none
  | p :: ps, l =>
      match dropPre p l with
      | some rest => some rest
      | none => firstTagMatch ps l

/-- Single left-to-right pass removing every pattern occurrence, continuing
after each removal without rescanning, as strings.NewReplacer does. Fuel-based
structural recursion keeps the function kernel-computable. -/
def stripTagsAux (pats : List (List Char)) : Nat → List Char → List Char
  | 0, l => l
  | _ + 1, [] => []
  | fuel + 1, c :: cs =>
      match firstTagMatch pats (c :: cs) with
      | some rest => stripTagsAux pats fuel rest
      | none => c :: stripTagsAux pats fuel cs

/-- receipt.go / part_002: the strings.NewReplacer step removing the repeated
element wrapper tags from the serialized XML. -/
def stripTags (s : String) : String :=
  String.mk (stripTagsAux
    [tagPAYMENTOpen.data, tagPAYMENTClose.data, tagVATTOTALOpen.data, tagVATTOTALClose.data]
    s.data.length s.data)

/-- encoding/xml Header: the declaration prefixed to the final envelope. -/
def xmlHeader : String := "<?xml version=\"1.0\" encoding=\"UTF-8\"?>\n"

/-- receipt.go ReceiptBytes: marshal (abstract collaborator), strip the
wrapper tags, sign the stripped bytes, then wrap the very same bytes together
with the base64 signature into the EFDMS envelope and prefix the XML header. -/
def ReceiptBytes (c : Crypto K Pub H Sig) (marshal : RCT → Except String String)
    (privateKey : K) (params : ReceiptParams) (customer : Customer)
    (items : List Item) (payments : List Payment) : Except String String :=
  let receipt := generateReceipt params customer items payments
  match marshal receipt with
  | Except.error e => Except.error ("could not marshal receipt: " ++ e)
  | Except.ok marshalled =>
      let receiptBytes := stripTags marshalled
      match Sign c privateKey receiptBytes with
      | Except.error e => Except.error ("could not sign receipt: " ++ e)
      | Except.ok signedReceipt =>
          Except.ok (xmlHeader ++ "<EFDMS>" ++ receiptBytes ++ "<EFDMSSIGNATURE>" ++
            c.b64enc signedReceipt ++ "</EFDMSSIGNATURE></EFDMS>")

/-- part_002 formatReportXmlPayload: strip the wrapper tags, then apply the
two regex substitutions forcing fixed two-decimal text on DAILYTOTALAMOUNT and
GROSS; the regex step is modelled abstractly as a string transformation
parameter, and every theorem below holds for all such transformations. -/
def formatReportXmlPayload (regexSub : String → String) (payload : String) : String :=
  regexSub (stripTags payload)

/-- part_002 ReportBytes: marshal (abstract collaborator), canonicalize via
formatReportXmlPayload, sign the canonical bytes with SignPayload, then embed
the very same bytes and the base64 signature in the EFDMS envelope and prefix
the XML header. -/
def ReportBytes (c : Crypto K Pub H Sig) (marshal : ZREPORT → Except String String)
    (regexSub : String → String) (privateKey : K) (params : ReportParams)
    (address : Address) (vats : List VATTOTAL) (payments : List Payment)
    (totals : ReportTotals) : Except String String :=
  let zReport := generateZReport params address vats payments totals
  match marshal zReport with
  | Except.error e => Except.error ("failed to marshal the report: " ++ e)
  | Except.ok marshalled =>
      let payloadString := formatReportXmlPayload regexSub marshalled
      match SignPayload c privateKey payloadString with
      | Except.error e => Except.error ("failed to sign the payload: " ++ e)
      | Except.ok signedPayload =>
          Except.ok (xmlHeader ++ "<EFDMS>" ++ payloadString ++ "<EFDMSSIGNATURE>" ++
            c.b64enc signedPayload ++ "</EFDMSSIGNATURE></EFDMS>")

/-- C3: whenever ReceiptBytes or ReportBytes succeeds, the signature embedded
between the EFDMSSIGNATURE tags was computed over exactly the canonical byte
sequence embedded between EFDMS and EFDMSSIGNATURE in the same output; the XML
declaration and the EFDMS wrapper lie outside the signed region, and the
signed bytes appear verbatim, with no transformation after signing. -/
theorem envelope_signs_exact_payload (c : Crypto K Pub H Sig)
    (marshalR : RCT → Except String String) (marshalZ : ZREPORT → Except String String)
    (regexSub : String → String) (privateKey : K) (params : ReceiptParams)
    (customer : Customer) (items : List Item) (payments : List Payment)
    (rparams : ReportParams) (address : Address) (vats : List VATTOTAL)
    (rpayments : List Payment) (totals : ReportTotals) (out1 out2 : String)
    (h1 : ReceiptBytes c marshalR privateKey params customer items payments = Except.ok out1)
    (h2 : ReportBytes c marshalZ regexSub privateKey rparams address vats rpayments totals =
      Except.ok out2) :
    (∃ raw sig,
      marshalR (generateReceipt params customer items payments) = Except.ok raw ∧
      Sign c privateKey (stripTags raw) = Except.ok sig ∧
      out1 = xmlHeader ++ "<EFDMS>" ++ stripTags raw ++ "<EFDMSSIGNATURE>" ++
        c.b64enc sig ++ "</EFDMSSIGNATURE></EFDMS>") ∧
    (∃ raw sig,
      marshalZ (generateZReport rparams address vats rpayments totals) = Except.ok raw ∧
      SignPayload c privateKey (formatReportXmlPayload regexSub raw) = Except.ok sig ∧
      out2 = xmlHeader ++ "<EFDMS>" ++ formatReportXmlPayload regexSub raw ++
        "<EFDMSSIGNATURE>" ++ c.b64enc sig ++ "</EFDMSSIGNATURE></EFDMS>") := by
  constructor
  · cases hm : marshalR (generateReceipt params customer items payments) with
    | error e =>
        simp only [ReceiptBytes, hm] at h1
        exact Except.noConfusion h1
    | ok raw =>
        cases hsg : Sign c privateKey (stripTags raw) with
        | error e =>
            simp only [ReceiptBytes, hm, hsg] at h1
            exact Except.noConfusion h1
        | ok sig0 =>
            refine ⟨raw, sig0, rfl, hsg, ?_⟩
            simp only [ReceiptBytes, hm, hsg, Except.ok.injEq] at h1
            exact h1.symm
  · cases hm : marshalZ (generateZReport rparams address vats rpayments totals) with
    | error e =>
        simp only [ReportBytes, hm] at h2
        exact Except.noConfusion h2
    | ok raw =>
        cases hsg : SignPayload c privateKey (formatReportXmlPayload regexSub raw) with
        | error e =>
            simp only [ReportBytes, hm, hsg] at h2
            exact Except.noConfusion h2
        | ok sig0 =>
            refine ⟨raw, sig0, rfl, hsg, ?_⟩
            simp only [ReportBytes, hm, hsg, Except.ok.injEq] at h2
            exact h2.symm

/-- Receipt params with empty strings, used for concrete instances. -/
def emptyReceiptParams : ReceiptParams :=
  { Date := "", Time := "", TIN := "", RegistrationID := "", EFDSerial := "",
    ReceiptNum := "", DailyCounter := 0, GlobalCounter := 0, ZNum := "", ReceiptVNum := "" }

/-- Customer with empty strings, used for concrete instances. -/
def emptyCustomer : Customer :=
  { CustType := 0, ID := "", Name := "", Mobile := "" }

/-- A fixed marshaller output standing for the xml.Marshal collaborator. -/
def rctMarshalOut : String := "<RCT></RCT>"

/-- A fixed marshaller output for the report path. -/
def zrepMarshalOut : String := "<ZREPORT></ZREPORT>"

/-- A constant marshaller for receipts. -/
def constMarshalR : RCT → Except String String := fun _ => Except.ok rctMarshalOut

/-- A constant marshaller for reports. -/
def constMarshalZ : ZREPORT → Except String String := fun _ => Except.ok zrepMarshalOut

/-- Closed instance of the C3 theorem at the trivial crypto collaborators and
constant marshellers. -/
theorem envelope_signs_exact_payload_witness :
    (∃ raw sig,
      constMarshalR (generateReceipt emptyReceiptParams emptyCustomer [] []) = Except.ok raw ∧
      Sign trivialCrypto () (stripTags raw) = Except.ok sig ∧
      (xmlHeader ++ "<EFDMS>" ++ stripTags rctMarshalOut ++ "<EFDMSSIGNATURE>" ++ "U0lH" ++
        "</EFDMSSIGNATURE></EFDMS>") =
        xmlHeader ++ "<EFDMS>" ++ stripTags raw ++ "<EFDMSSIGNATURE>" ++
          trivialCrypto.b64enc sig ++ "</EFDMSSIGNATURE></EFDMS>") ∧
    (∃ raw sig,
      constMarshalZ (generateZReport emptyReportParams emptyAddress [] [] unroundedTotals) =
        Except.ok raw ∧
      SignPayload trivialCrypto () (formatReportXmlPayload id raw) = Except.ok sig ∧
      (xmlHeader ++ "<EFDMS>" ++ formatReportXmlPayload id zrepMarshalOut ++
        "<EFDMSSIGNATURE>" ++ "U0lH" ++ "</EFDMSSIGNATURE></EFDMS>") =
        xmlHeader ++ "<EFDMS>" ++ formatReportXmlPayload id raw ++ "<EFDMSSIGNATURE>" ++
          trivialCrypto.b64enc sig ++ "</EFDMSSIGNATURE></EFDMS>") :=
  envelope_signs_exact_payload trivialCrypto constMarshalR constMarshalZ id ()
    emptyReceiptParams emptyCustomer [] [] emptyReportParams emptyAddress [] []
    unroundedTotals
    (xmlHeader ++ "<EFDMS>" ++ stripTags rctMarshalOut ++ "<EFDMSSIGNATURE>" ++ "U0lH" ++
      "</EFDMSSIGNATURE></EFDMS>")
    (xmlHeader ++ "<EFDMS>" ++ formatReportXmlPayload id zrepMarshalOut ++
      "<EFDMSSIGNATURE>" ++ "U0lH" ++ "</EFDMSSIGNATURE></EFDMS>")
    rfl rfl

/-- strings.ToUpper restricted to the byte-level mapping Go applies to the
ASCII payment keywords, modelled structurally on the character list. -/
def goToUpper (s : String) : String :=
  String.mk (s.data.map Char.toUpper)

/-- A Go interface value as passed to ParsePayment: an int, an int64, a
string, or a value of any other dynamic type. -/
inductive GoValue
  | goInt (n : ℤ)
  | goInt64 (n : ℤ)
  | goString (s : String)
  | goOther
deriving DecidableEq, Repr

/-- part_000 ParsePayment. The source type switch lists case int, int64
together, so the switch variable keeps the dynamic type any, and the body
asserts i.(int); for an int64 dynamic value that assertion panics, which is
modelled as none. All other branches return a payment type, defaulting to
CASH. -/
def ParsePayment : GoValue → Option PaymentType
  | GoValue.goInt n =>
      some (if n = 1 then CashPaymentType
        else if n = 2 then ChequePaymentType
        else if n = 3 then CreditCardPaymentType
        else if n = 4 then ElectronicPaymentType
        else if n = 5 then InvoicePaymentType
        else CashPaymentType)
  | GoValue.goInt64 _ => none
  | GoValue.goString s =>
      let valueString := goToUpper s
      some (if valueString = "CASH" then CashPaymentType
        else if valueString = "CHEQUE" then ChequePaymentType
        else if valueString = "CCARD" then CreditCardPaymentType
        else if valueString = "EMONEY" then ElectronicPaymentType
        else if valueString = "INVOICE" then InvoicePaymentType
        else CashPaymentType)
  | GoValue.goOther => some CashPaymentType

/-- C6 (code bug): ParsePayment is not total. Recognized int and string inputs
parse as claimed (1 maps to CASH, strings case-insensitively, anything
unrecognized falls back to CASH), but an int64 input panics: the multi-type
switch case binds the value at type any and the assertion i.(int) fails. -/
theorem parsePayment_not_total :
    ParsePayment (GoValue.goInt 1) = some CashPaymentType ∧
    ParsePayment (GoValue.goInt 7) = some CashPaymentType ∧
    ParsePayment (GoValue.goString ("cash")) = some CashPaymentType ∧
    ParsePayment (GoValue.goString ("wire")) = some CashPaymentType ∧
    ParsePayment GoValue.goOther = some CashPaymentType ∧
    ParsePayment (GoValue.goInt64 1) = none := by
  refine ⟨by decide, by decide, by decide, by decide, rfl, rfl⟩

/-- A Go error value as seen by checkNetworkError: context.Canceled,
context.DeadlineExceeded, a net.Error, or any other error. -/
inductive GoErr
  | ctxCanceled
  | ctxDeadline
  | netErr (msg : String)
  | otherErr (msg : String)
deriving DecidableEq, Repr

/-- part_002: the error kinds produced by the submission path: the NetworkError
struct (cause plus message), the application-rejection error built from the
authority error body, and a plain fmt.Errorf wrap of an underlying error. -/
inductive VfdError
  | network (cause : Option GoErr) (msg : String)
  | appError (msg : String)
  | wrapped (msg : String) (cause : GoErr)
deriving DecidableEq, Repr

/-- part_002 IsNetworkError: errors.As for the NetworkError kind; no code in
the submission path wraps a NetworkError inside another error, so the
constructor test is the whole unwrap-chain search. -/
def IsNetworkError : VfdError → Bool
  | VfdError.network _ _ => true
  | _ => false

/-- part_002 (*NetworkError).Unwrap and the unwrap of a fmt.Errorf %w wrap. -/
def VfdError.Unwrap : VfdError → Option GoErr
  | VfdError.network cause _ => cause
  | VfdError.wrapped _ cause => some cause
  | VfdError.appError _ => none

/-- part_002 checkNetworkError (body, for a non-nil error): a non-nil context
error, or an error equal to context.Canceled or context.DeadlineExceeded,
yields a NetworkError wrapping ctx.Err(); a net.Error yields a NetworkError
wrapping it; anything else is wrapped as a plain error. -/
def checkNetworkErrorSome (ctxErr : Option GoErr) (pre : String) (err : GoErr) : VfdError :=
  if ctxErr ≠ none ∨ err = GoErr.ctxCanceled ∨ err = GoErr.ctxDeadline then
    VfdError.network ctxErr (pre ++ ": context error (canceled or deadline exceeded)")
  else
    match err with
    | GoErr.netErr m => VfdError.network (some (GoErr.netErr m)) (pre ++ ": network error")
    | e => VfdError.wrapped pre e

/-- part_002 checkNetworkError: nil errors pass through as nil. -/
def checkNetworkError (ctxErr : Option GoErr) (pre : String) :
    Option GoErr → Option VfdError
  | none => none
  | some e => some (checkNetworkErrorSome ctxErr pre e)

/-- internal/models Error: the authority error envelope. -/
structure MError where
  Code : ℤ
  Message : String
deriving DecidableEq, Repr

/-- internal/models RCTACK. -/
structure RCTACK where
  RCTNUM : ℤ
  DATE : String
  TIME : String
  ACKCODE : ℤ
  ACKMSG : String
deriving DecidableEq, Repr

/-- part_000 Response. -/
structure Response where
  Number : ℤ
  Date : String
  Time : String
  Code : ℤ
  Message : String
deriving DecidableEq, Repr

/-- The observable outcome of the client.Do call with its body read: a
transport failure, a body-read failure, or a status code with body bytes. -/
inductive HTTPOutcome (β : Type)
  | doErr (e : GoErr)
  | readErr (e : GoErr)
  | resp (status : ℤ) (body : β)

/-- receipt.go submitReceipt, response-classification tail: transport errors
go through checkNetworkError under the derived context, HTTP 500 decodes the
authority error body and surfaces its message, and any other status decodes
the receipt acknowledgment. The two XML decoders are abstract collaborators. -/
def submitReceiptClassify (decodeErrBody : β → Except GoErr MError)
    (decodeAck : β → Except GoErr RCTACK) (ctxErr : Option GoErr)
    (outcome : HTTPOutcome β) : Except VfdError Response :=
  match outcome with
  | HTTPOutcome.doErr e =>
      Except.error (checkNetworkErrorSome ctxErr ("receipt upload") e)
  | HTTPOutcome.readErr e =>
      Except.error (VfdError.wrapped ("receipt upload failed") e)
  | HTTPOutcome.resp status body =>
      if status = 500 then
        match decodeErrBody body with
        | Except.error e => Except.error (VfdError.wrapped ("receipt upload failed") e)
        | Except.ok errBody =>
            Except.error (VfdError.appError ("registration error: " ++ errBody.Message))
      else
        match decodeAck body with
        | Except.error e => Except.error (VfdError.wrapped ("receipt upload failed") e)
        | Except.ok ack =>
            Except.ok ⟨ack.RCTNUM, ack.DATE, ack.TIME, ack.ACKCODE, ack.ACKMSG⟩

/-- C8: a transport failure under a canceled or deadline-exceeded context is
classified as a NetworkError (recognized by IsNetworkError, unwrapping to the
context cause), never as an application rejection; an HTTP 500 response whose
authority error body decodes is classified as an application rejection
carrying the decoded message, and that error is not a NetworkError. -/
theorem submit_error_classification (β : Type) (decodeErrBody : β → Except GoErr MError)
    (decodeAck : β → Except GoErr RCTACK) (ctxErr : Option GoErr) (e : GoErr)
    (body : β) (eb : MError)
    (hctx : ctxErr ≠ none) (hdec : decodeErrBody body = Except.ok eb) :
    submitReceiptClassify decodeErrBody decodeAck ctxErr (HTTPOutcome.doErr e) =
      Except.error (VfdError.network ctxErr
        ("receipt upload" ++ ": context error (canceled or deadline exceeded)")) ∧
    IsNetworkError (VfdError.network ctxErr
      ("receipt upload" ++ ": context error (canceled or deadline exceeded)")) = true ∧
    (VfdError.network ctxErr
      ("receipt upload" ++ ": context error (canceled or deadline exceeded)")).Unwrap = ctxErr ∧
    submitReceiptClassify decodeErrBody decodeAck ctxErr (HTTPOutcome.resp 500 body) =
      Except.error (VfdError.appError ("registration error: " ++ eb.Message)) ∧
    IsNetworkError (VfdError.appError ("registration error: " ++ eb.Message)) = false := by
  refine ⟨?_, rfl, rfl, ?_, rfl⟩
  · show Except.error (checkNetworkErrorSome ctxErr ("receipt upload") e) = _
    unfold checkNetworkErrorSome
    rw [if_pos (Or.inl hctx)]
  · simp only [submitReceiptClassify, hdec, if_pos]

/-- Closed instance of the C8 theorem: a cancellation context plus a transport
error yields a NetworkError unwrapping to the cancellation, and a 500 response
yields an application rejection with the decoded message. -/
theorem submit_error_classification_witness :
    submitReceiptClassify (fun _ : Unit => Except.ok ({ Code := 5, Message := "bad" } : MError))
        (fun _ : Unit => Except.error (GoErr.otherErr (""))) (some GoErr.ctxCanceled)
        (HTTPOutcome.doErr (GoErr.netErr ("boom"))) =
      Except.error (VfdError.network (some GoErr.ctxCanceled)
        ("receipt upload" ++ ": context error (canceled or deadline exceeded)")) ∧
    IsNetworkError (VfdError.network (some GoErr.ctxCanceled)
      ("receipt upload" ++ ": context error (canceled or deadline exceeded)")) = true ∧
    (VfdError.network (some GoErr.ctxCanceled)
      ("receipt upload" ++ ": context error (canceled or deadline exceeded)")).Unwrap =
      some GoErr.ctxCanceled ∧
    submitReceiptClassify (fun _ : Unit => Except.ok ({ Code := 5, Message := "bad" } : MError))
        (fun _ : Unit => Except.error (GoErr.otherErr (""))) (some GoErr.ctxCanceled)
        (HTTPOutcome.resp 500 ()) =
      Except.error (VfdError.appError ("registration error: " ++ ("bad" : String))) ∧
    IsNetworkError (VfdError.appError ("registration error: " ++ ("bad" : String))) = false :=
  submit_error_classification Unit
    (fun _ => Except.ok ({ Code := 5, Message := "bad" } : MError))
    (fun _ => Except.error (GoErr.otherErr (""))) (some GoErr.ctxCanceled)
    (GoErr.netErr ("boom")) () ({ Code := 5, Message := "bad" } : MError)
    (fun h => Option.noConfusion h) rfl
